import Mathlib

/-!
Verification of the SAME (Specific Area Message Encoding) alert decoder
pipeline: stream framing, header parsing, enrichment, persistence-schema
migration and snapshot publication.  Each definition is a shallow embedding
of the corresponding Python function of the repository (`same_decoder.py`,
`database_migrations.py`), keeping the source's names and control flow.

Python string operations are embedded as structurally recursive functions
over `String.data` (the character list), so that every definition computes
by kernel reduction; each `py...` helper carries the Python construct it
stands for.
-/

set_option maxRecDepth 40000

namespace SameEasy

/-! ## Python string primitives -/

/-- Python `str.strip()` with no argument: remove leading and trailing
whitespace. -/
def pyStrip (s : String) : String :=
  ⟨((s.data.dropWhile Char.isWhitespace).reverse.dropWhile
      Char.isWhitespace).reverse⟩

/-- Python `s.startswith(pre)`. -/
def pyStartsWith (s pre : String) : Bool :=
  pre.data.isPrefixOf s.data

/-- Python `s.endswith(suf)`. -/
def pyEndsWith (s suf : String) : Bool :=
  suf.data.isSuffixOf s.data

/-- Python `len(s)` (number of characters). -/
def pyLength (s : String) : Nat :=
  s.data.length

/-- Python `c in s` for a single character `c`. -/
def pyContainsChar (s : String) (c : Char) : Bool :=
  s.data.contains c

/-- Python `s.rstrip(c)` for a single strip character. -/
def pyRstrip (s : String) (c : Char) : String :=
  ⟨(s.data.reverse.dropWhile (fun x => x = c)).reverse⟩

/-- Python `s[n:]`. -/
def pyDropLeft (s : String) (n : Nat) : String :=
  ⟨s.data.drop n⟩

/-- Splitting a character list on every occurrence of a separator
character; Python `s.split(sep)` for a one-character `sep` (so `[]` maps
to `[""]`, and adjacent separators produce empty fields). -/
def splitCharList (sep : Char) : List Char → List (List Char)
  | [] => [[]]
  | c :: t =>
    let r := splitCharList sep t
    if c = sep then [] :: r else (c :: r.headD []) :: r.tail

/-- Python `s.split(sep)` for a one-character separator. -/
def pySplitChar (s : String) (sep : Char) : List String :=
  (splitCharList sep s.data).map (fun l => ⟨l⟩)

/-- The two pieces of a character list around its first occurrence of a
separator character (the list must contain the separator for the result to
be meaningful): Python `s.split(sep, 1)`. -/
def splitFirstList (sep : Char) : List Char → List Char × List Char
  | [] => ([], [])
  | c :: t =>
    if c = sep then ([], t)
    else
      let r := splitFirstList sep t
      (c :: r.1, r.2)

/-- Python `s.split(sep, 1)` for a one-character separator, when `sep`
occurs in `s`: the pieces before and after its first occurrence. -/
def pySplitOnce (s : String) (sep : Char) : String × String :=
  let r := splitFirstList sep s.data
  (⟨r.1⟩, ⟨r.2⟩)

/-- Python `s.isdigit()` restricted to ASCII digits: non-empty and all
characters are digits. -/
def pyIsDigit (s : String) : Bool :=
  ¬ s.data.isEmpty ∧ s.data.all Char.isDigit

/-- Substring containment over character lists. -/
def containsList (pat : List Char) : List Char → Bool
  | [] => pat.isPrefixOf []
  | c :: t => pat.isPrefixOf (c :: t) || containsList pat t

/-- Python `pat in s` (substring containment). -/
def pyContains (s pat : String) : Bool :=
  containsList pat.data s.data

/-- Left-to-right, non-overlapping replacement of a non-empty pattern in a
character list, fueled by the list length (the fuel strictly dominates the
number of characters consumed, so it never runs out). -/
def replaceList (pat rep : List Char) : Nat → List Char → List Char
  | 0, l => l
  | _ + 1, [] => []
  | fuel + 1, c :: t =>
    if pat.isPrefixOf (c :: t) && !pat.isEmpty then
      rep ++ replaceList pat rep fuel ((c :: t).drop pat.length)
    else
      c :: replaceList pat rep fuel t

/-- Python `s.replace(pat, rep)` for a non-empty `pat`. -/
def pyReplace (s pat rep : String) : String :=
  ⟨replaceList pat.data rep.data s.data.length s.data⟩

/-- Python `int(s)` for a string of decimal digits. -/
def toNatDigits (s : String) : Nat :=
  s.data.foldl (fun n c => n * 10 + (c.toNat - 48)) 0

instance {ε α : Type} [DecidableEq ε] [DecidableEq α] :
    DecidableEq (Except ε α) := fun x y =>
  match x, y with
  | .error a, .error b => decidable_of_iff (a = b) (by simp)
  | .ok a, .ok b => decidable_of_iff (a = b) (by simp)
  | .error _, .ok _ => isFalse (by simp)
  | .ok _, .error _ => isFalse (by simp)

/-! ## Stream framing (`stream_decode_from_stdin`)

The framing loop keeps an accumulation buffer.  For each stdin line it
strips surrounding whitespace, skips the line when it does not start with
the marker, otherwise appends it to the buffer; when the (stripped) line
ends with `-`, the buffer is handed to the decoder inside a `try/except`
whose failure is only logged, and the buffer is reset to empty.
`framerStep` is one iteration of that loop: it returns the new buffer and
the framed message, if this line completed one. -/

def framerStep (buffer line : String) : String × Option String :=
  let l := pyStrip line
  if pyStartsWith l "ZCZC-" then
    let b := buffer ++ l
    if pyEndsWith l "-" then ("", some b) else (b, none)
  else
    (buffer, none)

/-- The framed messages produced from a line sequence starting from a given
buffer, together with the buffer left at end of input: the pure skeleton of
the framing loop, with the decoder call left out. -/
def framedFrom (buffer : String) : List String → String × List String
  | [] => (buffer, [])
  | l :: ls =>
    match framerStep buffer l with
    | (b, none) => framedFrom b ls
    | (b, some m) =>
      let r := framedFrom b ls
      (r.1, m :: r.2)

/-- The framing loop together with the per-message decoder call.  The
source wraps `decode_same_message(buffer)` in `try/except Exception`,
logging and swallowing every failure, so the decoder's outcome is recorded
per framed message and the loop always continues; `decode` models the
decoder as an arbitrary fallible function. -/
def processFrom {E : Type} (decode : String → Except E Unit)
    (buffer : String) : List String → String × List (String × Except E Unit)
  | [] => (buffer, [])
  | l :: ls =>
    match framerStep buffer l with
    | (b, none) => processFrom decode b ls
    | (b, some m) =>
      let res := decode m
      let r := processFrom decode b ls
      (r.1, (m, res) :: r.2)

/-! ## Header parsing (`validate_same_message_format`, `parse_same_message`) -/

/-- The `ValueError`s raised by validation and parsing, one constructor per
distinct `raise` site. -/
inductive ParseError : Type
  | emptyMessage
  | noStartMarker
  | tooLong
  | tooFewParts
  | emptyOriginatorOrEvent
  | incompleteAfterDuration
  | missingRequiredFields
  | noFipsCodes
  | invalidDuration (d : String)
  | invalidTimestamp (t : String)
deriving DecidableEq, Repr

/-- The dictionary returned by `parse_same_message` on success. -/
structure ParsedMessage where
  originator : String
  event_code : String
  fips_codes : List String
  duration : String
  timestamp : String
  station_id : String
deriving DecidableEq, Repr

/-- `validate_same_message_format`: strip, then reject — in this order —
empty input, input not starting with `ZCZC-`, and input longer than 1000
characters; return the stripped message. -/
def validate_same_message_format (msg : String) : Except ParseError String :=
  let m := pyStrip msg
  if m = "" then .error .emptyMessage
  else if pyStartsWith m "ZCZC-" = false then .error .noStartMarker
  else if pyLength m > 1000 then .error .tooLong
  else .ok m

/-- `msg[5:].rstrip('-').split('-')`: drop the 5-character marker, strip
all trailing dashes, split on the dash. -/
def headerParts (m : String) : List String :=
  pySplitChar (pyRstrip (pyDropLeft m 5) '-') '-'

/-- The `for i in range(2, len(parts))` loop of `parse_same_message`,
recursing over the tokens from index 2 on.  Plain tokens are stripped and
(when non-empty) accumulated as FIPS codes; the first token containing `+`
is split at its first `+` into a final FIPS fragment and the duration,
after which the next two tokens (stripped) must exist and become timestamp
and station id — their absence is the "Incomplete SAME message after
duration" error — and all later tokens are ignored.  When no token
contains `+` the loop falls through with `duration = None`, which the
post-loop `all([...])` check turns into the "Missing required fields"
error. -/
def scanArea (fips : List String) :
    List String → Except ParseError (List String × String × String × String)
  | [] => .error .missingRequiredFields
  | t :: rest =>
    if pyContainsChar t '+' then
      let fd := pySplitOnce t '+'
      let fips := if pyStrip fd.1 ≠ "" then fips ++ [pyStrip fd.1] else fips
      match rest with
      | ts :: st :: _ => .ok (fips, fd.2, pyStrip ts, pyStrip st)
      | _ => .error .incompleteAfterDuration
    else
      scanArea (if pyStrip t ≠ "" then fips ++ [pyStrip t] else fips) rest

/-- The body of `parse_same_message` after marker stripping and token
splitting: at least 5 tokens; non-empty originator and event code; the
area/duration scan; then the post-loop validations in source order —
required fields truthy, FIPS list non-empty, duration exactly 4 digits,
timestamp exactly 7 digits. -/
def parseParts (parts : List String) : Except ParseError ParsedMessage :=
  if parts.length < 5 then .error .tooFewParts
  else
    let originator := pyStrip (parts.headD "")
    let event_code := pyStrip ((parts.drop 1).headD "")
    if originator = "" ∨ event_code = "" then .error .emptyOriginatorOrEvent
    else
      match scanArea [] (parts.drop 2) with
      | .error e => .error e
      | .ok (fips, dur, ts, st) =>
        if dur = "" ∨ ts = "" ∨ st = "" then .error .missingRequiredFields
        else if fips = [] then .error .noFipsCodes
        else if ¬ (pyIsDigit dur = true ∧ pyLength dur = 4) then
          .error (.invalidDuration dur)
        else if ¬ (pyIsDigit ts = true ∧ pyLength ts = 7) then
          .error (.invalidTimestamp ts)
        else .ok ⟨originator, event_code, fips, dur, ts, st⟩

/-- `parse_same_message`: validate the raw string, then parse its tokens. -/
def parse_same_message (msg : String) : Except ParseError ParsedMessage :=
  match validate_same_message_format msg with
  | .error e => .error e
  | .ok m => parseParts (headerParts m)

/-! ## Enrichment (`format_julian_timestamp`, `create_alert_data`)

The decode-time year is not part of the message; the code pins every
timestamp to the current year.  An issue instant is therefore represented
by its minute offset from the start of that (unmodelled) year, which is
exactly the information the `"%b %d %Y, %H:%M UTC"` rendering carries and
the later `strptime` recovers. -/

/-- The string returned by `format_julian_timestamp`: either the formatted
instant (represented by its minute offset into the year) or the fallback
`"Invalid timestamp (<raw>)"` produced when the function catches its own
validation error. -/
inductive TsResult : Type
  | valid (minutesOfYear : Nat)
  | invalid (raw : String)
deriving DecidableEq, Repr

/-- `format_julian_timestamp`: require a 7-digit string, split it as
JJJ/HH/MM, and require day 1–366, hour 0–23, minute 0–59; any violation is
raised and immediately caught by the function's own `except`, which returns
the `"Invalid timestamp (...)"` fallback instead of propagating. -/
def format_julian_timestamp (t : String) : TsResult :=
  if ¬ (t ≠ "" ∧ pyIsDigit t = true ∧ pyLength t = 7) then .invalid t
  else
    let jjj := toNatDigits ⟨t.data.take 3⟩
    let hh := toNatDigits ⟨(t.data.drop 3).take 2⟩
    let mm := toNatDigits ⟨t.data.drop 5⟩
    if ¬ (1 ≤ jjj ∧ jjj ≤ 366) then .invalid t
    else if ¬ hh ≤ 23 then .invalid t
    else if ¬ mm ≤ 59 then .invalid t
    else .valid ((jjj - 1) * 1440 + hh * 60 + mm)

/-- The three reference lookups used by enrichment (`_csv_cache`): a
missing key is an expected condition answered with `none`. -/
structure Catalog where
  originatorName : String → Option String
  eventName : String → Option String
  countyName : String → Option String

/-- The alert dictionary built by `create_alert_data`. -/
structure Alert where
  originator : String
  event : String
  event_code : String
  fips_codes : List String
  region_descriptions : List String
  duration_minutes : Nat
  timestamp_utc : TsResult
  issued_code : String
  source : String
  raw_message : String
  end_time : Option Nat
deriving DecidableEq, Repr

/-- `resolve_region_descriptions`: map each FIPS code through the county
table, falling back to `Unknown Region (<code>)` on a miss, preserving
order. -/
def resolve_region_descriptions (cat : Catalog) (fips : List String) :
    List String :=
  fips.map (fun f =>
    (cat.countyName f).getD ("Unknown Region (" ++ f ++ ")"))

/-- `create_alert_data`: resolve display names (defaulting to the raw
codes), format the issue instant, take `duration_minutes = int(duration)`,
and compute the end time by re-parsing the formatted issue string and
adding `duration_minutes` minutes — when the issue string is the invalid
fallback, that re-parse fails and `end_time` is `None`. -/
def create_alert_data (cat : Catalog) (p : ParsedMessage) (msg : String) :
    Alert :=
  let origin := (cat.originatorName p.originator).getD p.originator
  let event := (cat.eventName p.event_code).getD p.event_code
  let formatted := format_julian_timestamp p.timestamp
  let duration_minutes := toNatDigits p.duration
  let end_time :=
    match formatted with
    | .valid m => some (m + duration_minutes)
    | .invalid _ => none
  { originator := origin
    event := event
    event_code := p.event_code
    fips_codes := p.fips_codes
    region_descriptions := resolve_region_descriptions cat p.fips_codes
    duration_minutes := duration_minutes
    timestamp_utc := formatted
    issued_code := p.timestamp
    source := p.station_id
    raw_message := msg
    end_time := end_time }

/-! ## Snapshot publication (`write_last_message`) -/

/-- The region normalization of `write_last_message`: when the list is
non-empty and every entry contains the substring `"County"`, replace every
occurrence of `" County"` (note the leading space) by the empty string in
every entry; otherwise leave the list unchanged. -/
def normalizeRegions (regions : List String) : List String :=
  if (¬ regions.isEmpty) ∧ regions.all (fun r => pyContains r "County") then
    regions.map (fun r => pyReplace r " County" "")
  else regions

/-- The JSON snapshot written by `write_last_message` (the locale-adjusted
issue string and wall-clock `updated` field depend only on the alert's
issue instant and on the time of writing, and are not modelled). -/
structure Snapshot where
  event : String
  event_code : String
  originator : String
  source : String
  duration_minutes : Nat
  regions : List String
deriving DecidableEq, Repr

/-- `write_last_message` as the snapshot value it publishes (the write is
temp-file-then-atomic-rename; its I/O is not modelled). -/
def write_last_message (a : Alert) : Snapshot :=
  { event := a.event
    event_code := a.event_code
    originator := a.originator
    source := a.source
    duration_minutes := a.duration_minutes
    regions := normalizeRegions a.region_descriptions }

/-- `decode_same_message`: parse, enrich, then persist (`log_alert_to_db`)
and publish (`write_last_message`).  A parse error propagates before any
store or snapshot write; on success the alert row is appended and the
snapshot published, which the `.ok` result carries as a pair. -/
def decode_same_message (cat : Catalog) (msg : String) :
    Except ParseError (Alert × Snapshot) :=
  match parse_same_message msg with
  | .error e => .error e
  | .ok p =>
    let a := create_alert_data cat p msg
    .ok (a, write_last_message a)

/-- A catalog with no entries, for concrete evaluations (every lookup
takes the documented fallback path). -/
def emptyCatalog : Catalog :=
  ⟨fun _ => none, fun _ => none, fun _ => none⟩

/-! ## Schema migrations (`database_migrations.py`)

The SQLite store is modelled by the schema facts the migration module
reads and writes: whether the `schema_version` table exists and its rows
in insertion order (`ORDER BY id DESC LIMIT 1` reads the last), whether
the `alerts` table exists, its column names, and its index names. -/

structure DbState where
  hasVersionTable : Bool
  versionLog : List Nat
  hasAlertsTable : Bool
  alertsColumns : List String
  indexes : List String
deriving DecidableEq, Repr

/-- `CURRENT_SCHEMA_VERSION`. -/
def CURRENT_SCHEMA_VERSION : Nat := 2

/-- `get_schema_version`: 0 when the `schema_version` table is absent,
otherwise the most recently inserted version row (0 when none). -/
def get_schema_version (s : DbState) : Nat :=
  if s.hasVersionTable then (s.versionLog.getLast?).getD 0 else 0

/-- `set_schema_version`: create the version table if needed and insert a
new version row. -/
def set_schema_version (v : Nat) (s : DbState) : DbState :=
  { s with hasVersionTable := true, versionLog := s.versionLog ++ [v] }

/-- The base `alerts` columns created by `migration_v0_to_v1`. -/
def baseColumns : List String :=
  ["id", "timestamp_utc", "originator", "event", "fips_codes", "regions",
   "duration_minutes", "issued_code", "source", "raw_message"]

/-- `migration_v0_to_v1`: `CREATE TABLE IF NOT EXISTS alerts (...)`. -/
def migration_v0_to_v1 (s : DbState) : DbState :=
  if s.hasAlertsTable then s
  else { s with hasAlertsTable := true, alertsColumns := baseColumns }

/-- The error a migration step can raise (an `ALTER TABLE` against a
missing `alerts` table). -/
inductive MigError : Type
  | noSuchTable
deriving DecidableEq, Repr

/-- The index names created by `migration_v1_to_v2`. -/
def v2Indexes : List String :=
  ["idx_alerts_timestamp", "idx_alerts_event_code", "idx_alerts_originator",
   "idx_alerts_created_at"]

/-- `migration_v1_to_v2`: read the existing columns once, `ALTER TABLE`-add
`event_code` and `created_at` when missing from that snapshot, and create
the four indexes with `IF NOT EXISTS`.  When the `alerts` table does not
exist, `PRAGMA table_info` reports no columns and the first `ALTER TABLE`
raises. -/
def migration_v1_to_v2 (s : DbState) : Except MigError DbState :=
  if ¬ s.hasAlertsTable then .error .noSuchTable
  else
    let existing := s.alertsColumns
    let c1 := if existing.contains "event_code" then existing
              else existing ++ ["event_code"]
    let c2 := if existing.contains "created_at" then c1
              else c1 ++ ["created_at"]
    let ix := v2Indexes.foldl
      (fun acc n => if acc.contains n then acc else acc ++ [n]) s.indexes
    .ok { s with alertsColumns := c2, indexes := ix }

/-- `validate_schema`: every expected column must be present among the
actual columns of `alerts` (extra columns only warn). -/
def validate_schema (s : DbState) : Bool :=
  let actual := if s.hasAlertsTable then s.alertsColumns else []
  (baseColumns ++ ["event_code", "created_at"]).all
    (fun c => actual.contains c)

/-- The migration table of `run_migrations`:
`[(0, 1, migration_v0_to_v1), (1, 2, migration_v1_to_v2)]`. -/
def migrations : List (Nat × Nat × (DbState → Except MigError DbState)) :=
  [(0, 1, fun s => .ok (migration_v0_to_v1 s)),
   (1, 2, migration_v1_to_v2)]

/-- One iteration of the `for from_version, to_version, migration_func`
loop: skipped when an earlier step already raised; otherwise, when the
tracked current version equals the step's source version, run the step and
record the new version — with the pair (version before, version written)
appended to an audit trace — else skip the step. -/
def applyStep (acc : DbState × Nat × List (Nat × Nat) × Option MigError)
    (step : Nat × Nat × (DbState → Except MigError DbState)) :
    DbState × Nat × List (Nat × Nat) × Option MigError :=
  match acc with
  | (s, cur, ws, some e) => (s, cur, ws, some e)
  | (s, cur, ws, none) =>
    if cur = step.1 then
      match step.2.2 s with
      | .error e => (s, cur, ws, some e)
      | .ok s1 =>
        (set_schema_version step.2.1 s1, step.2.1, ws ++ [(cur, step.2.1)],
         none)
    else (s, cur, ws, none)

/-- The outcome reported by `run_migrations`: `True` split into the two
log messages the function distinguishes (`up to date` versus migrations
run and validated), `False` for a too-new stored version or failed
validation, and the re-raised step exception. -/
inductive MigOutcome : Type
  | upToDate
  | success
  | versionTooNew
  | validationFailed
  | raised (e : MigError)
deriving DecidableEq, Repr

/-- `run_migrations`: read the stored version; report up-to-date when it
already equals `CURRENT_SCHEMA_VERSION`; refuse (returning `False`) when
it exceeds it; otherwise run the migration table in order and validate the
final schema.  Returns the final store state, the outcome, and the audit
trace of (version before step, version written by step) pairs. -/
def run_migrations (s : DbState) : DbState × MigOutcome × List (Nat × Nat) :=
  let cur := get_schema_version s
  if cur = CURRENT_SCHEMA_VERSION then (s, .upToDate, [])
  else if cur > CURRENT_SCHEMA_VERSION then (s, .versionTooNew, [])
  else
    match migrations.foldl applyStep (s, cur, [], none) with
    | (s1, _, ws, some e) => (s1, .raised e, ws)
    | (s1, _, ws, none) =>
      (s1, if validate_schema s1 then .success else .validationFailed, ws)

/-- A fresh store: no tables at all; `get_schema_version` reads 0. -/
def freshDb : DbState :=
  ⟨false, [], false, [], []⟩

/-! ## Claim theorems -/

/-- Claim C4.  Parsing the header
`ZCZC-EAS-RWT-012057-012081-012101-012103-012115+0030-2780415-WTSP/TV-`
succeeds with originator `EAS`, event `RWT`, the five area codes in
broadcast order, duration `0030`, issue timestamp `2780415` and station id
`WTSP/TV`. -/
theorem claim_C4_example_header :
    parse_same_message
      "ZCZC-EAS-RWT-012057-012081-012101-012103-012115+0030-2780415-WTSP/TV-" =
    .ok ⟨"EAS", "RWT", ["012057", "012081", "012101", "012103", "012115"],
      "0030", "2780415", "WTSP/TV"⟩ := by
  decide

/-- Claim C2 (code behaviour at the failing input).  The claim says the
alert's duration in minutes is (first two digits as hours) × 60 + (last two
digits as minutes), so `"0130"` should give 90 minutes; the code instead
takes `int(duration)`, so decoding a header with duration token `0130`
(issued day 1, 00:00) stores 130 minutes and an end time 130 minutes after
the issue instant — not the 90 the claim requires. -/
theorem claim_C2_duration_not_hhmm :
    (decode_same_message emptyCatalog
        "ZCZC-EAS-RWT-012057+0130-0010000-WTSP/TV-").map
        (fun r => (r.1.duration_minutes, r.1.end_time)) =
      .ok (130, some 130) ∧
    (1 * 60 + 30 : Nat) = 90 ∧ (130 : Nat) ≠ 90 := by
  decide

/-- Claim C3 (counterexample).  With a non-empty accumulation buffer, a
stripped line that does not begin with `ZCZC-` is NOT appended as a
continuation: the framing step discards it and leaves the buffer
unchanged, contradicting the claim's "discard only when the buffer is
empty". -/
theorem claim_C3_counterexample :
    pyStartsWith (pyStrip "FOO-") "ZCZC-" = false ∧
    ("ZCZC-EAS" : String) ≠ "" ∧
    framerStep "ZCZC-EAS" "FOO-" = ("ZCZC-EAS", none) := by
  decide

/-- Claim C3 (amended).  After stripping, a line is discarded (buffer and
output unchanged) if and only if it does not begin with `ZCZC-`,
regardless of whether the buffer is empty; a marker line is appended to
the buffer, and completes a message exactly when it ends with `-`. -/
theorem claim_C3_discard_iff_no_marker (buffer line : String) :
    (pyStartsWith (pyStrip line) "ZCZC-" = false →
      framerStep buffer line = (buffer, none)) ∧
    (pyStartsWith (pyStrip line) "ZCZC-" = true →
      framerStep buffer line =
        (if pyEndsWith (pyStrip line) "-" then
          ("", some (buffer ++ pyStrip line))
        else (buffer ++ pyStrip line, none))) := by
  constructor <;> intro h <;> simp [framerStep, h]

/-- Claim C3 (witness): a noise line is discarded even though the buffer
is non-empty. -/
theorem claim_C3_witness : framerStep "B" "noise" = ("B", none) :=
  (claim_C3_discard_iff_no_marker "B" "noise").1 (by decide)

/-- Claim C9.  The framed-message sequence and the framer's buffer are
independent of the decoder's outcomes: running the framing loop with any
fallible decoder produces exactly the framed messages of the pure framer,
each paired with its decoder result (failures are caught per message and
the loop continues); and whenever a step emits a framed message the buffer
is reset to empty. -/
theorem claim_C9_failure_isolated :
    (∀ (E : Type) (decode : String → Except E Unit) (lines : List String)
        (buffer : String),
      processFrom decode buffer lines =
        ((framedFrom buffer lines).1,
         (framedFrom buffer lines).2.map (fun m => (m, decode m)))) ∧
    (∀ buffer line m, (framerStep buffer line).2 = some m →
      (framerStep buffer line).1 = "") := by
  constructor
  · intro E decode lines
    induction lines with
    | nil => intro buffer; simp [processFrom, framedFrom]
    | cons l ls ih =>
      intro buffer
      rcases h : framerStep buffer l with ⟨b, _ | m⟩ <;>
        simp [processFrom, framedFrom, h, ih]
  · intro buffer line m h
    simp only [framerStep] at h ⊢
    split at h
    · split at h <;> simp_all
    · simp_all

/-- Claim C9 (witness): with a decoder that always fails, a stream of two
complete headers still frames and processes both, with the buffer left
empty. -/
theorem claim_C9_witness :
    processFrom (fun _ => (.error () : Except Unit Unit)) ""
        ["ZCZC-A-", "noise", "ZCZC-B-"] =
      ("", [("ZCZC-A-", .error ()), ("ZCZC-B-", .error ())]) := by
  rw [claim_C9_failure_isolated.1 Unit (fun _ => .error ()) ["ZCZC-A-", "noise", "ZCZC-B-"] ""]
  decide

/-- Claim C10 (counterexample).  A 1001-character input that does not
begin with the start marker fails with the start-marker error, not the
"Message too long" error, so not every over-long input fails as "Message
too long". -/
theorem claim_C10_counterexample :
    pyLength (pyStrip (⟨List.replicate 1001 'A'⟩ : String)) > 1000 ∧
    parse_same_message (⟨List.replicate 1001 'A'⟩ : String) =
      .error .noStartMarker ∧
    ParseError.noStartMarker ≠ ParseError.tooLong := by
  refine ⟨by decide, ?_, by decide⟩
  decide

/-- Claim C10 (amended).  For every input whose stripped form begins with
`ZCZC-` and is longer than 1000 characters, parsing fails with the
"Message too long" error (the validation happens before any
tokenization); an over-long input without the marker fails with the
start-marker error instead. -/
theorem claim_C10_too_long (msg : String)
    (hstart : pyStartsWith (pyStrip msg) "ZCZC-" = true)
    (hlen : pyLength (pyStrip msg) > 1000) :
    parse_same_message msg = .error .tooLong := by
  have hne : ¬ pyStrip msg = "" := by
    intro he
    rw [he] at hstart
    exact absurd hstart (by decide)
  simp [parse_same_message, validate_same_message_format, hne, hstart, hlen]

/-- Claim C10 (witness): a 1001-character input starting with the marker
fails as "Message too long". -/
theorem claim_C10_witness :
    parse_same_message ("ZCZC-" ++ (⟨List.replicate 996 'A'⟩ : String)) =
      .error .tooLong :=
  claim_C10_too_long ("ZCZC-" ++ (⟨List.replicate 996 'A'⟩ : String))
    (by decide) (by decide)

/-- Claim C8 (counterexample).  An entry can contain the substring
`County` without containing `" County"` (space before the token): for the
singleton list `["Countyville"]` every entry contains the token, yet the
published list is unchanged and the token is not stripped from it. -/
theorem claim_C8_counterexample :
    pyContains "Countyville" "County" = true ∧
    normalizeRegions ["Countyville"] = ["Countyville"] ∧
    pyReplace "Countyville" "County" "" = "ville" ∧
    ("Countyville" : String) ≠ "ville" := by
  decide

/-- Claim C8 (amended).  For a non-empty region list: when every entry
contains the substring `County`, the published list is the input with
every occurrence of `" County"` (with its leading space) removed from
every entry — an occurrence of `County` not preceded by a space is left
in place; when at least one entry lacks the substring, the list is
published unchanged. -/
theorem claim_C8_county_normalization (regions : List String)
    (hne : regions ≠ []) :
    ((∀ r ∈ regions, pyContains r "County" = true) →
      normalizeRegions regions =
        regions.map (fun r => pyReplace r " County" "")) ∧
    ((∃ r ∈ regions, pyContains r "County" = false) →
      normalizeRegions regions = regions) := by
  constructor
  · intro hall
    rw [normalizeRegions, if_pos]
    refine ⟨by simpa using hne, ?_⟩
    rw [List.all_eq_true]
    exact hall
  · rintro ⟨r, hr, hcon⟩
    rw [normalizeRegions, if_neg]
    rintro ⟨-, h2⟩
    rw [List.all_eq_true] at h2
    exact absurd (h2 r hr) (by simp [hcon])

/-- Claim C8 (witness): a list in which every entry carries the usual
`" County"` suffix is published with the suffix stripped from every
entry. -/
theorem claim_C8_witness :
    normalizeRegions ["Polk County", "Hillsborough County"] =
      (["Polk County", "Hillsborough County"].map
        (fun r => pyReplace r " County" "")) ∧
    (["Polk County", "Hillsborough County"].map
        (fun r => pyReplace r " County" "")) = ["Polk", "Hillsborough"] :=
  ⟨(claim_C8_county_normalization ["Polk County", "Hillsborough County"]
      (by decide)).1 (by decide), by decide⟩

/-! ### Migration lemmas -/

lemma migration_v0_to_v1_table (s : DbState) :
    (migration_v0_to_v1 s).hasAlertsTable = true := by
  unfold migration_v0_to_v1
  split <;> simp_all

lemma addIdx_mem_preserve (ns : List String) :
    ∀ acc m, m ∈ acc →
      m ∈ ns.foldl (fun acc n => if acc.contains n then acc else acc ++ [n])
        acc := by
  induction ns with
  | nil => intro acc m h; simpa using h
  | cons x t ih =>
    intro acc m h
    simp only [List.foldl_cons]
    apply ih
    split
    · exact h
    · exact List.mem_append_left _ h

lemma addIdx_mem (ns : List String) :
    ∀ acc n, n ∈ ns →
      n ∈ ns.foldl (fun acc n => if acc.contains n then acc else acc ++ [n])
        acc := by
  induction ns with
  | nil => intro acc n h; cases h
  | cons x t ih =>
    intro acc n h
    simp only [List.foldl_cons]
    rcases List.mem_cons.mp h with rfl | h
    · apply addIdx_mem_preserve
      split
      · simp_all
      · simp
    · exact ih _ _ h

lemma migration_v1_to_v2_ok (s : DbState) (h : s.hasAlertsTable = true) :
    ∃ t, migration_v1_to_v2 s = .ok t ∧
      "event_code" ∈ t.alertsColumns ∧ "created_at" ∈ t.alertsColumns ∧
      (∀ n ∈ v2Indexes, n ∈ t.indexes) ∧
      t.hasVersionTable = s.hasVersionTable ∧
      t.versionLog = s.versionLog ∧
      t.hasAlertsTable = true := by
  unfold migration_v1_to_v2
  rw [if_neg (by simp [h])]
  refine ⟨_, rfl, ?_, ?_, ?_, rfl, rfl, h⟩
  · by_cases h1 : s.alertsColumns.contains "event_code" <;>
      by_cases h2 : s.alertsColumns.contains "created_at" <;>
        simp_all
  · by_cases h1 : s.alertsColumns.contains "event_code" <;>
      by_cases h2 : s.alertsColumns.contains "created_at" <;>
        simp_all
  · intro n hn
    exact addIdx_mem _ _ _ hn

lemma run_migrations_at_target (s : DbState)
    (h : get_schema_version s = 2) :
    run_migrations s = (s, .upToDate, []) := by
  simp [run_migrations, CURRENT_SCHEMA_VERSION, h]

lemma run_migrations_from_zero (s : DbState)
    (h0 : get_schema_version s = 0) :
    ∃ t, migration_v1_to_v2 (set_schema_version 1 (migration_v0_to_v1 s)) =
        .ok t ∧
      run_migrations s =
        (set_schema_version 2 t,
         if validate_schema (set_schema_version 2 t) then .success
         else .validationFailed,
         [(0, 1), (1, 2)]) := by
  obtain ⟨t, ht, -, -, -, -, -, -⟩ :=
    migration_v1_to_v2_ok (set_schema_version 1 (migration_v0_to_v1 s))
      (by simp [set_schema_version, migration_v0_to_v1_table])
  refine ⟨t, ht, ?_⟩
  have hfold : migrations.foldl applyStep (s, 0, [], none) =
      (set_schema_version 2 t, 2, [(0, 1), (1, 2)], none) := by
    simp only [migrations, List.foldl_cons, List.foldl_nil, applyStep]
    simp only [reduceIte, List.nil_append]
    rw [ht]
    simp
  simp only [run_migrations, h0, CURRENT_SCHEMA_VERSION]
  rw [hfold]
  simp

lemma run_migrations_from_one (s : DbState)
    (h1 : get_schema_version s = 1) :
    (run_migrations s).2.2 = [] ∨ (run_migrations s).2.2 = [(1, 2)] := by
  by_cases hA : s.hasAlertsTable = true
  · obtain ⟨t, ht, -, -, -, -, -, -⟩ := migration_v1_to_v2_ok s hA
    right
    have hfold : migrations.foldl applyStep (s, 1, [], none) =
        (set_schema_version 2 t, 2, [(1, 2)], none) := by
      simp only [migrations, List.foldl_cons, List.foldl_nil, applyStep]
      simp
      rw [ht]
    simp only [run_migrations, h1, CURRENT_SCHEMA_VERSION]
    rw [hfold]
    simp
  · left
    have hA2 : s.hasAlertsTable = false := by simpa using hA
    have herr : migration_v1_to_v2 s = .error .noSuchTable := by
      simp [migration_v1_to_v2, hA2]
    have hfold : migrations.foldl applyStep (s, 1, [], none) =
        (s, 1, [], some .noSuchTable) := by
      simp only [migrations, List.foldl_cons, List.foldl_nil, applyStep]
      simp
      rw [herr]
    simp only [run_migrations, h1, CURRENT_SCHEMA_VERSION]
    rw [hfold]
    simp

/-- Claim C6.  From any store whose stored schema version reads 0, one
invocation of `run_migrations` leaves the stored version at exactly 2, the
`alerts` table with both the `event_code` and `created_at` columns and the
four secondary indexes; and invoking migration again on the resulting
store performs no migration step (empty audit trace, store unchanged) and
reports that the schema is up to date. -/
theorem claim_C6_migrate_v0_to_v2 (s : DbState)
    (h0 : get_schema_version s = 0) :
    get_schema_version (run_migrations s).1 = 2 ∧
    "event_code" ∈ (run_migrations s).1.alertsColumns ∧
    "created_at" ∈ (run_migrations s).1.alertsColumns ∧
    (∀ n ∈ v2Indexes, n ∈ (run_migrations s).1.indexes) ∧
    run_migrations (run_migrations s).1 =
      ((run_migrations s).1, .upToDate, []) := by
  obtain ⟨t, ht, hrun⟩ := run_migrations_from_zero s h0
  obtain ⟨t2, ht2, he, hc, hi, -, -, -⟩ :=
    migration_v1_to_v2_ok (set_schema_version 1 (migration_v0_to_v1 s))
      (by simp [set_schema_version, migration_v0_to_v1_table])
  rw [ht] at ht2
  obtain rfl : t = t2 := by injection ht2
  have hver : get_schema_version (run_migrations s).1 = 2 := by
    rw [hrun]
    simp [get_schema_version, set_schema_version]
  refine ⟨hver, ?_, ?_, ?_, run_migrations_at_target _ hver⟩
  · rw [hrun]; simpa [set_schema_version] using he
  · rw [hrun]; simpa [set_schema_version] using hc
  · rw [hrun]; simpa [set_schema_version] using hi

/-- Claim C6 (witness): migrating a fresh store. -/
theorem claim_C6_witness :
    get_schema_version (run_migrations freshDb).1 = 2 ∧
    "event_code" ∈ (run_migrations freshDb).1.alertsColumns ∧
    "created_at" ∈ (run_migrations freshDb).1.alertsColumns ∧
    (∀ n ∈ v2Indexes, n ∈ (run_migrations freshDb).1.indexes) ∧
    run_migrations (run_migrations freshDb).1 =
      ((run_migrations freshDb).1, .upToDate, []) :=
  claim_C6_migrate_v0_to_v2 freshDb (by decide)

/-- Claim C7.  Migration never moves the stored version backward: every
(version before step, version written) pair in the audit trace of any run
is strictly increasing, and when the stored version exceeds the supported
version 2 the run refuses — it returns the failure outcome with the store
untouched and no migration step run. -/
theorem claim_C7_forward_only (s : DbState) :
    (∀ w ∈ (run_migrations s).2.2, w.1 < w.2) ∧
    (get_schema_version s > 2 →
      run_migrations s = (s, .versionTooNew, [])) := by
  have htoo : get_schema_version s > 2 →
      run_migrations s = (s, .versionTooNew, []) := by
    intro h
    simp only [run_migrations, CURRENT_SCHEMA_VERSION]
    rw [if_neg (by omega), if_pos h]
  refine ⟨?_, htoo⟩
  rcases Nat.lt_trichotomy (get_schema_version s) 2 with hlt | heq | hgt
  · have h01 : get_schema_version s = 0 ∨ get_schema_version s = 1 := by
      omega
    rcases h01 with h0 | h1
    · obtain ⟨t, -, hrun⟩ := run_migrations_from_zero s h0
      rw [hrun]
      simp
    · rcases run_migrations_from_one s h1 with h | h <;> rw [h] <;> simp
  · rw [run_migrations_at_target s heq]
    simp
  · rw [htoo hgt]
    simp

/-- Claim C7 (witness): a store recording version 3 makes migration refuse
without running any step. -/
theorem claim_C7_witness :
    run_migrations ⟨true, [3], false, [], []⟩ =
      (⟨true, [3], false, [], []⟩, .versionTooNew, []) :=
  (claim_C7_forward_only ⟨true, [3], false, [], []⟩).2 (by decide)

/-! ### Scanner lemmas -/

/-- The FIPS codes the scan accumulates over a run of plain (`+`-free)
tokens: each token stripped, empty results dropped. -/
def collectFips : List String → List String
  | [] => []
  | t :: rest =>
    if pyStrip t ≠ "" then pyStrip t :: collectFips rest
    else collectFips rest

lemma scanArea_append (pre : List String)
    (h : ∀ x ∈ pre, pyContainsChar x '+' = false) :
    ∀ fips l, scanArea fips (pre ++ l) =
      scanArea (fips ++ collectFips pre) l := by
  induction pre with
  | nil => intro fips l; simp [collectFips]
  | cons x rest ih =>
    intro fips l
    have hx : pyContainsChar x '+' = false := h x (by simp)
    have hrest : ∀ y ∈ rest, pyContainsChar y '+' = false := by
      intro y hy
      exact h y (by simp [hy])
    simp only [List.cons_append, scanArea, hx, Bool.false_eq_true,
      if_false, List.append_eq]
    rw [ih hrest]
    by_cases hs : pyStrip x = ""
    · simp [collectFips, hs]
    · simp [collectFips, hs, List.append_assoc]

lemma parseParts_scan_ok (parts : List String) (h5 : ¬ parts.length < 5)
    (ho : ¬ (pyStrip (parts.headD "") = "" ∨
      pyStrip ((parts.drop 1).headD "") = ""))
    {fips : List String} {dur ts st : String}
    (hs : scanArea [] (parts.drop 2) = .ok (fips, dur, ts, st)) :
    parseParts parts =
      (if dur = "" ∨ ts = "" ∨ st = "" then .error .missingRequiredFields
       else if fips = [] then .error .noFipsCodes
       else if ¬ (pyIsDigit dur = true ∧ pyLength dur = 4) then
         .error (.invalidDuration dur)
       else if ¬ (pyIsDigit ts = true ∧ pyLength ts = 7) then
         .error (.invalidTimestamp ts)
       else .ok ⟨pyStrip (parts.headD ""), pyStrip ((parts.drop 1).headD ""),
         fips, dur, ts, st⟩) := by
  simp only [parseParts]
  rw [if_neg h5, if_neg ho, hs]

/-- Claim C5.  In a header with at least 5 tokens, non-empty originator
and event code, and whose first `+`-bearing token in the scan region has
fewer than two following tokens, parsing fails with the "incomplete
message after duration" error; when the two following tokens exist they
become (stripped) the issue timestamp and the station id, and every token
beyond them is ignored — the parse result coincides with that of the
header truncated right after the station-id token. -/
theorem claim_C5_post_duration_tokens
    (a b t : String) (pre rest : List String)
    (ha : pyStrip a ≠ "") (hb : pyStrip b ≠ "")
    (hpre : ∀ x ∈ pre, pyContainsChar x '+' = false)
    (ht : pyContainsChar t '+' = true) :
    ((a :: b :: (pre ++ t :: rest)).length ≥ 5 → rest.length < 2 →
      parseParts (a :: b :: (pre ++ t :: rest)) =
        .error .incompleteAfterDuration) ∧
    (∀ ts st rest2, rest = ts :: st :: rest2 →
      parseParts (a :: b :: (pre ++ t :: rest)) =
        parseParts (a :: b :: (pre ++ [t, ts, st])) ∧
      ∀ p, parseParts (a :: b :: (pre ++ t :: rest)) = .ok p →
        p.timestamp = pyStrip ts ∧ p.station_id = pyStrip st) := by
  have hdrop : (a :: b :: (pre ++ t :: rest)).drop 2 = pre ++ t :: rest :=
    rfl
  have hho : ¬ (pyStrip ((a :: b :: (pre ++ t :: rest)).headD "") = "" ∨
      pyStrip (((a :: b :: (pre ++ t :: rest)).drop 1).headD "") = "") := by
    simp [ha, hb]
  constructor
  · intro hlen hr2
    have hscan : scanArea [] ((a :: b :: (pre ++ t :: rest)).drop 2) =
        scanArea (collectFips pre) (t :: rest) := by
      rw [hdrop, scanArea_append pre hpre]
      simp
    simp only [parseParts]
    rw [if_neg (Nat.not_lt.mpr hlen), if_neg hho, hscan]
    rcases rest with - | ⟨x, - | ⟨y, r⟩⟩
    · simp [scanArea, ht]
    · simp [scanArea, ht]
    · simp only [List.length_cons] at hr2
      omega
  · rintro ts st rest2 rfl
    have hlen1 : ¬ (a :: b :: (pre ++ t :: ts :: st :: rest2)).length < 5 := by
      simp only [List.length_cons, List.length_append]
      omega
    have hlen2 : ¬ (a :: b :: (pre ++ [t, ts, st])).length < 5 := by
      simp only [List.length_cons, List.length_append]
      omega
    have hho2 : ¬ (pyStrip ((a :: b :: (pre ++ [t, ts, st])).headD "") = "" ∨
        pyStrip (((a :: b :: (pre ++ [t, ts, st])).drop 1).headD "") = "") := by
      simp [ha, hb]
    have hscan1 : scanArea [] ((a :: b :: (pre ++ t :: ts :: st :: rest2)).drop 2) =
        .ok (if pyStrip (pySplitOnce t '+').1 ≠ "" then
              collectFips pre ++ [pyStrip (pySplitOnce t '+').1]
             else collectFips pre,
             (pySplitOnce t '+').2, pyStrip ts, pyStrip st) := by
      rw [show (a :: b :: (pre ++ t :: ts :: st :: rest2)).drop 2 =
        pre ++ t :: ts :: st :: rest2 from rfl, scanArea_append pre hpre]
      simp [scanArea, ht]
    have hscan2 : scanArea [] ((a :: b :: (pre ++ [t, ts, st])).drop 2) =
        .ok (if pyStrip (pySplitOnce t '+').1 ≠ "" then
              collectFips pre ++ [pyStrip (pySplitOnce t '+').1]
             else collectFips pre,
             (pySplitOnce t '+').2, pyStrip ts, pyStrip st) := by
      rw [show (a :: b :: (pre ++ [t, ts, st])).drop 2 =
        pre ++ [t, ts, st] from rfl, scanArea_append pre hpre]
      simp [scanArea, ht]
    have hp1 := parseParts_scan_ok _ hlen1 hho hscan1
    have hp2 := parseParts_scan_ok _ hlen2 hho2 hscan2
    constructor
    · rw [hp1, hp2]
      simp
    · intro p hok
      rw [hp1] at hok
      split_ifs at hok
      all_goals
        (injection hok with hmk
         subst hmk
         exact ⟨rfl, rfl⟩)

/-- Claim C5 (witness): a 5-token header whose `+`-token is last fails
with the "incomplete message after duration" error. -/
theorem claim_C5_witness :
    parseParts ["EAS", "RWT", "012057", "012081", "012101+0030"] =
      .error .incompleteAfterDuration :=
  (claim_C5_post_duration_tokens "EAS" "RWT" "012101+0030"
    ["012057", "012081"] [] (by decide) (by decide) (by decide)
    (by decide)).1 (by decide) (by decide)

/-! ### Parser-validation lemmas -/

lemma parseParts_ok_fields (parts : List String) (p : ParsedMessage)
    (h : parseParts parts = .ok p) :
    pyIsDigit p.duration = true ∧ pyLength p.duration = 4 ∧
    pyIsDigit p.timestamp = true ∧ pyLength p.timestamp = 7 := by
  simp only [parseParts] at h
  split at h
  · exact absurd h (by simp)
  · split at h
    · exact absurd h (by simp)
    · split at h
      · exact absurd h (by simp)
      · split_ifs at h
        injection h with hmk
        subst hmk
        simp_all

lemma parse_ok_fields (msg : String) (p : ParsedMessage)
    (h : parse_same_message msg = .ok p) :
    pyIsDigit p.duration = true ∧ pyLength p.duration = 4 ∧
    pyIsDigit p.timestamp = true ∧ pyLength p.timestamp = 7 := by
  unfold parse_same_message at h
  split at h
  · exact absurd h (by simp)
  · exact parseParts_ok_fields _ _ h

lemma format_julian_timestamp_invalid (t : String)
    (h : toNatDigits ⟨t.data.take 3⟩ = 0 ∨ toNatDigits ⟨t.data.take 3⟩ = 367 ∨
      toNatDigits ⟨(t.data.drop 3).take 2⟩ = 24 ∨
      toNatDigits ⟨t.data.drop 5⟩ = 60) :
    format_julian_timestamp t = .invalid t := by
  simp only [format_julian_timestamp]
  split
  · rfl
  · split
    · rfl
    · split
      · rfl
      · split
        · rfl
        · rename_i h1 h2 h3 h4
          exfalso
          rw [not_not] at h2 h3 h4
          rcases h with h | h | h | h <;> omega

/-- Claim C1 (counterexample).  A header whose 7-digit timestamp token has
ordinal day 367 does NOT fail: parsing succeeds, and the decode pipeline
still appends the alert row and publishes a snapshot (the `.ok` result),
with the issue time rendered as the invalid-timestamp placeholder. -/
theorem claim_C1_counterexample :
    pyIsDigit "3670000" = true ∧ pyLength "3670000" = 7 ∧
    toNatDigits ⟨("3670000" : String).data.take 3⟩ = 367 ∧
    (decode_same_message emptyCatalog
        "ZCZC-EAS-RWT-012057+0030-3670000-WTSP/TV-").map
        (fun r => (r.1.issued_code, r.1.timestamp_utc, r.1.end_time,
          r.2.regions)) =
      .ok ("3670000", .invalid "3670000", none,
        ["Unknown Region (012057)"]) := by
  decide

/-- Claim C1 (amended).  Digit-count violations do fail and never reach
persistence: every successful parse has a 4-digit duration and a 7-digit
timestamp, and a parse error makes the whole decode fail with that error
(so no alert row and no snapshot).  Range violations do not fail: a parsed
message whose 7-digit timestamp has day 0 or 367, hour 24, or minute 60 is
still decoded successfully — the alert row is appended and the snapshot
published — with the issue time replaced by the invalid-timestamp
placeholder and no end time. -/
theorem claim_C1_field_format_failures :
    (∀ msg p, parse_same_message msg = .ok p →
      pyIsDigit p.duration = true ∧ pyLength p.duration = 4 ∧
      pyIsDigit p.timestamp = true ∧ pyLength p.timestamp = 7) ∧
    (∀ (cat : Catalog) msg e, parse_same_message msg = .error e →
      decode_same_message cat msg = .error e) ∧
    (∀ (cat : Catalog) msg p, parse_same_message msg = .ok p →
      (toNatDigits ⟨p.timestamp.data.take 3⟩ = 0 ∨
       toNatDigits ⟨p.timestamp.data.take 3⟩ = 367 ∨
       toNatDigits ⟨(p.timestamp.data.drop 3).take 2⟩ = 24 ∨
       toNatDigits ⟨p.timestamp.data.drop 5⟩ = 60) →
      decode_same_message cat msg =
        .ok (create_alert_data cat p msg,
          write_last_message (create_alert_data cat p msg)) ∧
      (create_alert_data cat p msg).timestamp_utc = .invalid p.timestamp ∧
      (create_alert_data cat p msg).end_time = none) := by
  refine ⟨parse_ok_fields, ?_, ?_⟩
  · intro cat msg e h
    simp [decode_same_message, h]
  · intro cat msg p h hrange
    have hfmt := format_julian_timestamp_invalid p.timestamp hrange
    refine ⟨by simp [decode_same_message, h], ?_, ?_⟩ <;>
      simp [create_alert_data, hfmt]

/-- Claim C1 (witness): a 3-digit duration token fails parsing with the
duration-format error and the decode pipeline fails with the same error,
appending nothing. -/
theorem claim_C1_witness :
    decode_same_message emptyCatalog
        "ZCZC-EAS-RWT-012057+030-0010000-WTSP/TV-" =
      .error (.invalidDuration "030") :=
  claim_C1_field_format_failures.2.1 emptyCatalog
    "ZCZC-EAS-RWT-012057+030-0010000-WTSP/TV-" (.invalidDuration "030")
    (by decide)

end SameEasy

